import Mathlib

/-!
Shallow embedding of the energy-analysis transform pipeline
(`energy_analysis/defs/assets.py` and the `basic/renewable_coverage_analysis.py`
variant).  DataFrames are lists of row structures; floats are exact rationals;
missing values (NaN / pandas NA) are `Option.none`; float division by zero and
division of a float by a missing value both yield an undefined result, modelled
by `none`.
-/

attribute [local semireducible] Rat.add Rat.mul Rat.sub Rat.inv

namespace EnergyAnalysis

/-- Tolerance used by the `energy_conservation_check` (`tolerance = 1e-6`). -/
def tol : ℚ := 1 / 1000000

/-- Float division as pandas produces it for a column divide: a zero divisor
gives inf/NaN (undefined, modelled `none`), otherwise the exact quotient. -/
def fdiv (a b : ℚ) : Option ℚ := if b = 0 then none else some (a / b)

/-- Division of a metric by a nullable integer population: NA divisor gives NA,
zero divisor gives inf/NaN; both are undefined results (`none`). -/
def pdiv (a : ℚ) : Option ℤ → Option ℚ
  | none => none
  | some n => if n = 0 then none else some (a / (n : ℚ))

/-- `astype(int)` on a float value: truncation toward zero. -/
def truncQ (q : ℚ) : ℤ := q.num.tdiv (q.den : ℤ)

/-- A raw row of `population-with-un-projections.csv` after CSV parsing:
the population estimate column may be missing. -/
structure RawPopRow where
  Entity : String
  Code : String
  Year : ℤ
  population_raw : Option ℚ
deriving DecidableEq

/-- A normalized population row produced by the advanced pipeline's
`population` asset: non-null integer population. -/
structure PopRow where
  entity : String
  entity_code : String
  year : ℤ
  population : ℤ
deriving DecidableEq

/-- A normalized population row produced by the basic pipeline's
`_prepare_population`: the population column is only renamed, never
dropped or cast, so it stays nullable. -/
structure PopRowBasic where
  entity : String
  entity_code : String
  year : ℤ
  population : Option ℚ
deriving DecidableEq

/-- A normalized energy-consumption row (`energy_consumption` asset output). -/
structure ConsRow where
  entity : String
  entity_code : String
  year : ℤ
  energy_consumption : ℚ
deriving DecidableEq

/-- A normalized renewable-share row (`renewable_coverage` asset output);
`entity_code` is nullable in the source schema. -/
structure RenewRow where
  entity : String
  entity_code : Option String
  year : ℤ
  renewable_energy_pct : ℚ
deriving DecidableEq

/-- A row of `regional-grouping.csv` (`regional_grouping` asset output). -/
structure RegionRow where
  region_entity_code : String
  region_name : String
  entity_code : String
deriving DecidableEq

/-- A row of the `energy_breakdown` asset output. -/
structure EBRow where
  entity : String
  entity_code : String
  year : ℤ
  energy_consumption : ℚ
  renewable_energy_pct : ℚ
  fossil_energy_pct : ℚ
  renewable_energy_consumption : ℚ
  fossil_energy_consumption : ℚ
deriving DecidableEq

/-- A row of the unified country/region breakdown schema
(`energy_breakdown_with_population` and `energy_breakdown_with_new_regions`
outputs): population is nullable `Int64`, and the two percentage columns may
be NaN (undefined) after the regional recomputation. -/
structure BRow where
  entity : String
  entity_code : String
  year : ℤ
  energy_consumption : ℚ
  renewable_energy_pct : Option ℚ
  fossil_energy_pct : Option ℚ
  renewable_energy_consumption : ℚ
  fossil_energy_consumption : ℚ
  population : Option ℤ
deriving DecidableEq

/-- A row of the `energy_breakdown_per_capita` asset output. -/
structure PCRow extends BRow where
  energy_consumption_per_capita : Option ℚ
  renewable_energy_per_capita : Option ℚ
  fossil_energy_per_capita : Option ℚ
deriving DecidableEq

/-- The `population` asset: rename the raw columns, drop rows with a missing
population, cast year and population to integer. -/
def population (raw : List RawPopRow) : List PopRow :=
  (raw.filter (fun r => r.population_raw.isSome)).map (fun r =>
    { entity := r.Entity
      entity_code := r.Code
      year := r.Year
      population := truncQ (r.population_raw.getD 0) })

/-- The basic pipeline's `_prepare_population`: rename the columns and select
them; no row is dropped and no cast is applied. -/
def prepare_population (raw : List RawPopRow) : List PopRowBasic :=
  raw.map (fun r =>
    { entity := r.Entity
      entity_code := r.Code
      year := r.Year
      population := r.population_raw })

/-- The renewable-share rows matching a consumption row under the merge keys
`["entity", "entity_code", "year"]` (a null `entity_code` matches nothing,
since consumption codes are non-null strings). -/
def ebMatches (rs : List RenewRow) (c : ConsRow) : List RenewRow :=
  rs.filter (fun r =>
    decide (r.entity = c.entity ∧ r.entity_code = some c.entity_code ∧ r.year = c.year))

/-- The breakdown row built from a consumption row and the (already
`fillna(0)`-filled) renewable share `p`. -/
def mkEB (c : ConsRow) (p : ℚ) : EBRow :=
  { entity := c.entity
    entity_code := c.entity_code
    year := c.year
    energy_consumption := c.energy_consumption
    renewable_energy_pct := p
    fossil_energy_pct := 1 - p
    renewable_energy_consumption := c.energy_consumption * p
    fossil_energy_consumption := c.energy_consumption * (1 - p) }

/-- The rows one consumption row contributes to the left join: the no-match
case keeps the row with a share of `fillna(0)`. -/
def ebRowsFor (rs : List RenewRow) (c : ConsRow) : List EBRow :=
  match ebMatches rs c with
  | [] => [mkEB c 0]
  | ms => ms.map (fun m => mkEB c m.renewable_energy_pct)

/-- The `energy_breakdown` asset: left join of consumption with renewable
share on `(entity, entity_code, year)`, `fillna(0)` on the share, then the
derived percentage and absolute-consumption columns. -/
def energy_breakdown : List ConsRow → List RenewRow → List EBRow
  | [], _ => []
  | c :: cs, rs => ebRowsFor rs c ++ energy_breakdown cs rs

/-- Lift a breakdown row into the unified schema, attaching a (possibly
missing) population. -/
def toBRow (b : EBRow) (pop : Option ℤ) : BRow :=
  { entity := b.entity
    entity_code := b.entity_code
    year := b.year
    energy_consumption := b.energy_consumption
    renewable_energy_pct := some b.renewable_energy_pct
    fossil_energy_pct := some b.fossil_energy_pct
    renewable_energy_consumption := b.renewable_energy_consumption
    fossil_energy_consumption := b.fossil_energy_consumption
    population := pop }

/-- The population rows matching a breakdown row under the merge keys
`["entity", "entity_code", "year"]`. -/
def popMatches (ps : List PopRow) (b : EBRow) : List PopRow :=
  ps.filter (fun p =>
    decide (p.entity = b.entity ∧ p.entity_code = b.entity_code ∧ p.year = b.year))

/-- The rows one breakdown row contributes to the population left join. -/
def popRowsFor (ps : List PopRow) (b : EBRow) : List BRow :=
  match popMatches ps b with
  | [] => [toBRow b none]
  | ms => ms.map (fun p => toBRow b (some p.population))

/-- The `energy_breakdown_with_population` asset: left join of the breakdown
with population on `(entity, entity_code, year)`; non-matching rows keep a
null population (`astype("Int64")`). -/
def energy_breakdown_with_population : List EBRow → List PopRow → List BRow
  | [], _ => []
  | b :: bs, ps => popRowsFor ps b ++ energy_breakdown_with_population bs ps

/-- `entities_of_interest`: inner join of the population-joined breakdown with
the regional grouping on `entity_code`; a country absent from the mapping
contributes no pair. -/
def entities_of_interest : List BRow → List RegionRow → List (BRow × RegionRow)
  | [], _ => []
  | x :: l, mapping =>
    (mapping.filter (fun m => decide (m.entity_code = x.entity_code))).map
        (fun m => (x, m)) ++
      entities_of_interest l mapping

/-- The groupby key `(region_entity_code, region_name, year)` of a joined pair. -/
def rollupKey (p : BRow × RegionRow) : String × String × ℤ :=
  (p.2.region_entity_code, p.2.region_name, p.1.year)

/-- The member rows of one groupby group. -/
def groupMembers (ps : List (BRow × RegionRow)) (k : String × String × ℤ) : List BRow :=
  (ps.filter (fun p => decide (rollupKey p = k))).map (fun p => p.1)

/-- One aggregated rollup row for a group key: sums of population (pandas sums
skip NA, so a null population counts as 0), energy consumption and the two
absolute consumptions, then percentages recomputed from the summed absolutes;
after `rename`, `region_name` becomes `entity` and `region_entity_code`
becomes `entity_code`. -/
def mkRollup (ps : List (BRow × RegionRow)) (k : String × String × ℤ) : BRow :=
  { entity := k.2.1
    entity_code := k.1
    year := k.2.2
    energy_consumption := ((groupMembers ps k).map (fun r => r.energy_consumption)).sum
    renewable_energy_pct :=
      fdiv ((groupMembers ps k).map (fun r => r.renewable_energy_consumption)).sum
        ((groupMembers ps k).map (fun r => r.energy_consumption)).sum
    fossil_energy_pct :=
      fdiv ((groupMembers ps k).map (fun r => r.fossil_energy_consumption)).sum
        ((groupMembers ps k).map (fun r => r.energy_consumption)).sum
    renewable_energy_consumption :=
      ((groupMembers ps k).map (fun r => r.renewable_energy_consumption)).sum
    fossil_energy_consumption :=
      ((groupMembers ps k).map (fun r => r.fossil_energy_consumption)).sum
    population := some ((groupMembers ps k).map (fun r => r.population.getD 0)).sum }

/-- The `energy_breakdown_with_new_regions` asset: inner join with the
regional mapping, group by `(region_entity_code, region_name, year)`,
aggregate, recompute the percentages, rename to the shared schema. -/
def energy_breakdown_with_new_regions (rows : List BRow) (mapping : List RegionRow) :
    List BRow :=
  (((entities_of_interest rows mapping).map rollupKey).dedup).map
    (mkRollup (entities_of_interest rows mapping))

/-- The per-capita assignment applied to one unified row. -/
def perCapita (r : BRow) : PCRow :=
  { toBRow := r
    energy_consumption_per_capita := pdiv r.energy_consumption r.population
    renewable_energy_per_capita := pdiv r.renewable_energy_consumption r.population
    fossil_energy_per_capita := pdiv r.fossil_energy_consumption r.population }

/-- The `energy_breakdown_per_capita` asset: concatenate the country table and
the regional rollup table, then assign the three per-capita columns. -/
def energy_breakdown_per_capita (countries regions : List BRow) : List PCRow :=
  (countries ++ regions).map perCapita

/-- Whether a per-capita row survives the report's invalid-data removal
(`dropna` on the per-capita columns, `replace(inf, NA)`, then a full
`dropna` over every column — the nullable columns are the three per-capita
metrics, the population and the two percentages). -/
def validRow (r : PCRow) : Bool :=
  r.energy_consumption_per_capita.isSome && r.renewable_energy_per_capita.isSome &&
    r.fossil_energy_per_capita.isSome && r.population.isSome &&
    r.renewable_energy_pct.isSome && r.fossil_energy_pct.isSome

/-- `valid_energy_data` in `export_analysis_report`. -/
def valid_energy_data (rows : List PCRow) : List PCRow :=
  rows.filter validRow

/-- Stable descending insertion: a new element goes after every earlier
element whose key is at least as large (pandas `nlargest` keeps first). -/
def insertDesc (f : PCRow → ℚ) (r : PCRow) : List PCRow → List PCRow
  | [] => [r]
  | a :: l => if f r ≤ f a then a :: insertDesc f r l else r :: a :: l

/-- Stable descending sort by a key. -/
def sortDesc (f : PCRow → ℚ) (l : List PCRow) : List PCRow :=
  l.foldr (insertDesc f) []

/-- `Series.idxmax` over a group: the first row attaining the maximal key. -/
def firstMaxBy (f : PCRow → ℚ) : List PCRow → Option PCRow
  | [] => none
  | a :: l =>
    match firstMaxBy f l with
    | none => some a
    | some b => if f a < f b then some b else some a

/-- `groupby("entity")[col].idxmax()` followed by `.loc`: one row per entity,
the first row attaining that entity's maximal value. -/
def argmaxPerEntity (f : PCRow → ℚ) (l : List PCRow) : List PCRow :=
  ((l.map (fun r => r.entity)).dedup).filterMap
    (fun e => firstMaxBy f (l.filter (fun r => decide (r.entity = e))))

/-- The `Top_10_Renewable_Max` sheet rows: per-entity maxima of the renewable
per-capita value over the valid data, then the 10 largest. -/
def top_10_renewable_max (rows : List PCRow) : List PCRow :=
  (sortDesc (fun r => (r.renewable_energy_per_capita).getD 0)
      (argmaxPerEntity (fun r => (r.renewable_energy_per_capita).getD 0)
        (valid_energy_data rows))).take 10

/-- The `Top_10_Fossil_Max` sheet rows. -/
def top_10_fossil_max (rows : List PCRow) : List PCRow :=
  (sortDesc (fun r => (r.fossil_energy_per_capita).getD 0)
      (argmaxPerEntity (fun r => (r.fossil_energy_per_capita).getD 0)
        (valid_energy_data rows))).take 10

/-- `latest_year_with_population` in `export_analysis_report`. -/
def latest_year_with_population (rows : List PCRow) : Option ℤ :=
  ((rows.filter (fun r => r.population.isSome)).map (fun r => r.year)).max?

/-- `nam_iberia_data`: the valid rows of the two named regions within the most
recent ten years; when no row has a population the year comparison against
NaN selects nothing. -/
def nam_iberia_data (rows : List PCRow) : List PCRow :=
  match latest_year_with_population rows with
  | none => []
  | some y =>
    (valid_energy_data rows).filter (fun r =>
      decide (y - 9 ≤ r.year ∧ (r.entity = "North America" ∨ r.entity = "Iberia")))

/-- Whether one row is counted invalid by the conservation check: pandas
comparisons against NaN are false, so an undefined percentage is never
flagged. -/
def rowViolates (f r : Option ℚ) : Bool :=
  match f, r with
  | some qf, some qr => decide (tol < |qf + qr - 1|)
  | _, _ => false

/-- The blocking `energy_conservation_check`: passes when no row is flagged. -/
def energy_conservation_check (rows : List BRow) : Bool :=
  decide ((rows.filter (fun g =>
    rowViolates g.fossil_energy_pct g.renewable_energy_pct)).length = 0)

/-- The conservation invariant on a unified row: both percentages are defined
and sum to 1 within the tolerance. -/
def conservationHolds (g : BRow) : Prop :=
  ∃ qf qr, g.fossil_energy_pct = some qf ∧ g.renewable_energy_pct = some qr ∧
    |qf + qr - 1| ≤ tol

lemma mem_ebRowsFor {rs : List RenewRow} {c : ConsRow} {b : EBRow}
    (h : b ∈ ebRowsFor rs c) : ∃ p : ℚ, b = mkEB c p := by
  unfold ebRowsFor at h
  rcases hm : ebMatches rs c with _ | ⟨m, ms⟩ <;> rw [hm] at h
  · simp only [List.mem_singleton] at h
    exact ⟨0, h⟩
  · rcases List.mem_map.mp h with ⟨m', _, rfl⟩
    exact ⟨m'.renewable_energy_pct, rfl⟩

lemma ebRowsFor_ne_nil (rs : List RenewRow) (c : ConsRow) : ebRowsFor rs c ≠ [] := by
  unfold ebRowsFor
  rcases hm : ebMatches rs c with _ | ⟨m, ms⟩ <;> simp

lemma ebRowsFor_subset {cs : List ConsRow} (rs : List RenewRow) {c : ConsRow}
    (h : c ∈ cs) : ebRowsFor rs c ⊆ energy_breakdown cs rs := by
  induction h with
  | head => exact fun b hb => List.mem_append_left _ hb
  | tail c' hmem ih => exact fun b hb => List.mem_append_right _ (ih hb)

lemma eb_shape {cs : List ConsRow} {rs : List RenewRow} {b : EBRow}
    (h : b ∈ energy_breakdown cs rs) : ∃ c ∈ cs, ∃ p : ℚ, b = mkEB c p := by
  induction cs with
  | nil => cases h
  | cons c cs ih =>
    rcases List.mem_append.mp h with h1 | h2
    · rcases mem_ebRowsFor h1 with ⟨p, rfl⟩
      exact ⟨c, List.mem_cons_self c cs, p, rfl⟩
    · rcases ih h2 with ⟨c', hc', p, hp⟩
      exact ⟨c', List.mem_cons_of_mem c hc', p, hp⟩

lemma mem_popRowsFor {ps : List PopRow} {x : BRow} {b : EBRow}
    (h : x ∈ popRowsFor ps b) : ∃ pop, x = toBRow b pop := by
  unfold popRowsFor at h
  rcases hm : popMatches ps b with _ | ⟨m, ms⟩ <;> rw [hm] at h
  · simp only [List.mem_singleton] at h
    exact ⟨none, h⟩
  · rcases List.mem_map.mp h with ⟨p', _, rfl⟩
    exact ⟨some p'.population, rfl⟩

lemma bwp_shape {ebs : List EBRow} {ps : List PopRow} {x : BRow}
    (h : x ∈ energy_breakdown_with_population ebs ps) :
    ∃ b ∈ ebs, ∃ pop, x = toBRow b pop := by
  induction ebs with
  | nil => cases h
  | cons b bs ih =>
    rcases List.mem_append.mp h with h1 | h2
    · rcases mem_popRowsFor h1 with ⟨pop, rfl⟩
      exact ⟨b, List.mem_cons_self b bs, pop, rfl⟩
    · rcases ih h2 with ⟨b', hb', pop, hp⟩
      exact ⟨b', List.mem_cons_of_mem b hb', pop, hp⟩

/-- Every row of the population-joined breakdown of a combiner output splits
its consumption exactly into the renewable and fossil parts. -/
lemma bwp_split {cs : List ConsRow} {rs : List RenewRow} {ps : List PopRow} {x : BRow}
    (h : x ∈ energy_breakdown_with_population (energy_breakdown cs rs) ps) :
    x.renewable_energy_consumption + x.fossil_energy_consumption = x.energy_consumption := by
  rcases bwp_shape h with ⟨b, hb, pop, rfl⟩
  rcases eb_shape hb with ⟨c, -, p, rfl⟩
  show c.energy_consumption * p + c.energy_consumption * (1 - p) = c.energy_consumption
  ring

lemma eoi_append (l1 l2 : List BRow) (mapping : List RegionRow) :
    entities_of_interest (l1 ++ l2) mapping =
      entities_of_interest l1 mapping ++ entities_of_interest l2 mapping := by
  induction l1 with
  | nil => rfl
  | cons x l ih =>
    simp only [List.cons_append, entities_of_interest, List.append_eq, ih, List.append_assoc]

lemma eoi_fst_mem {rows : List BRow} {mapping : List RegionRow} {p : BRow × RegionRow}
    (h : p ∈ entities_of_interest rows mapping) : p.1 ∈ rows := by
  induction rows with
  | nil => cases h
  | cons x l ih =>
    rcases List.mem_append.mp h with h1 | h2
    · rcases List.mem_map.mp h1 with ⟨m, -, rfl⟩
      exact List.mem_cons_self x l
    · exact List.mem_cons_of_mem x (ih h2)

lemma rollup_shape {rows : List BRow} {mapping : List RegionRow} {g : BRow}
    (h : g ∈ energy_breakdown_with_new_regions rows mapping) :
    ∃ k, g = mkRollup (entities_of_interest rows mapping) k := by
  rcases List.mem_map.mp h with ⟨k, -, rfl⟩
  exact ⟨k, rfl⟩

lemma groupMembers_mem {ps : List (BRow × RegionRow)} {k : String × String × ℤ} {x : BRow}
    (h : x ∈ groupMembers ps k) : ∃ p ∈ ps, p.1 = x := by
  rcases List.mem_map.mp h with ⟨p, hp, rfl⟩
  exact ⟨p, List.mem_of_mem_filter hp, rfl⟩

lemma sum_split (l : List BRow)
    (h : ∀ x ∈ l, x.renewable_energy_consumption + x.fossil_energy_consumption =
      x.energy_consumption) :
    (l.map (fun r => r.renewable_energy_consumption)).sum +
        (l.map (fun r => r.fossil_energy_consumption)).sum =
      (l.map (fun r => r.energy_consumption)).sum := by
  induction l with
  | nil => simp
  | cons a l ih =>
    have ha := h a (List.mem_cons_self a l)
    have ih' := ih (fun x hx => h x (List.mem_cons_of_mem a hx))
    simp only [List.map_cons, List.sum_cons]
    linarith

lemma sum_getD_eq_sum_filterMap (l : List BRow) :
    (l.map (fun r => r.population.getD 0)).sum =
      (l.filterMap (fun r => r.population)).sum := by
  induction l with
  | nil => rfl
  | cons a l ih =>
    rcases ha : a.population with _ | n <;>
      simp [List.filterMap_cons, ha, ih]

lemma mem_insertDesc {f : PCRow → ℚ} {r x : PCRow} :
    ∀ {l : List PCRow}, x ∈ insertDesc f r l → x = r ∨ x ∈ l
  | [], h => by
    simp only [insertDesc, List.mem_singleton] at h
    exact Or.inl h
  | a :: l, h => by
    unfold insertDesc at h
    by_cases hc : f r ≤ f a
    · rw [if_pos hc] at h
      rcases List.mem_cons.mp h with h1 | h1
      · exact Or.inr (List.mem_cons.mpr (Or.inl h1))
      · rcases mem_insertDesc h1 with h2 | h2
        · exact Or.inl h2
        · exact Or.inr (List.mem_cons.mpr (Or.inr h2))
    · rw [if_neg hc] at h
      rcases List.mem_cons.mp h with h1 | h1
      · exact Or.inl h1
      · exact Or.inr h1

lemma mem_sortDesc {f : PCRow → ℚ} {x : PCRow} :
    ∀ {l : List PCRow}, x ∈ sortDesc f l → x ∈ l
  | [], h => h
  | a :: l, h => by
    rcases mem_insertDesc (l := sortDesc f l) h with h1 | h1
    · exact List.mem_cons.mpr (Or.inl h1)
    · exact List.mem_cons_of_mem a (mem_sortDesc h1)

lemma firstMaxBy_mem {f : PCRow → ℚ} {r : PCRow} :
    ∀ {l : List PCRow}, firstMaxBy f l = some r → r ∈ l
  | [], h => by cases h
  | a :: l, h => by
    rcases hm : firstMaxBy f l with _ | b
    · simp only [firstMaxBy, hm, Option.some.injEq] at h
      rw [← h]
      exact List.mem_cons_self a l
    · simp only [firstMaxBy, hm] at h
      by_cases hc : f a < f b
      · rw [if_pos hc] at h
        simp only [Option.some.injEq] at h
        rw [← h]
        exact List.mem_cons_of_mem a (firstMaxBy_mem hm)
      · rw [if_neg hc] at h
        simp only [Option.some.injEq] at h
        rw [← h]
        exact List.mem_cons_self a l

lemma mem_argmaxPerEntity {f : PCRow → ℚ} {l : List PCRow} {x : PCRow}
    (h : x ∈ argmaxPerEntity f l) : x ∈ l := by
  rcases List.mem_filterMap.mp h with ⟨e, -, he⟩
  exact List.mem_of_mem_filter (firstMaxBy_mem he)

lemma valid_energy_data_valid {rows : List PCRow} {x : PCRow}
    (h : x ∈ valid_energy_data rows) : validRow x = true :=
  (List.mem_filter.mp h).2

lemma top_10_renewable_max_valid {rows : List PCRow} {x : PCRow}
    (h : x ∈ top_10_renewable_max rows) : validRow x = true :=
  valid_energy_data_valid (mem_argmaxPerEntity (mem_sortDesc (List.mem_of_mem_take h)))

lemma top_10_fossil_max_valid {rows : List PCRow} {x : PCRow}
    (h : x ∈ top_10_fossil_max rows) : validRow x = true :=
  valid_energy_data_valid (mem_argmaxPerEntity (mem_sortDesc (List.mem_of_mem_take h)))

lemma nam_iberia_data_valid {rows : List PCRow} {x : PCRow}
    (h : x ∈ nam_iberia_data rows) : validRow x = true := by
  unfold nam_iberia_data at h
  rcases hy : latest_year_with_population rows with _ | y <;> rw [hy] at h
  · cases h
  · exact valid_energy_data_valid (List.mem_of_mem_filter h)

/-- A per-capita row whose consumption-per-capita is undefined never counts as
valid. -/
lemma validRow_false_of_undefined {x : PCRow}
    (h : x.energy_consumption_per_capita = none) : validRow x = false := by
  simp [validRow, h]

/-- C3: the breakdown combiner left-joins consumption with renewable share on
`(entity, entity_code, year)` keeping every consumption row; a consumption row
with no renewable-share match yields a kept row with
`renewable_energy_pct = 0` and `fossil_energy_pct = 1`; and every output row
satisfies `fossil_energy_pct = 1 - renewable_energy_pct`,
`renewable_energy_consumption = energy_consumption * renewable_energy_pct` and
`fossil_energy_consumption = energy_consumption * fossil_energy_pct`. -/
theorem C3_breakdown_left_join (cs : List ConsRow) (rs : List RenewRow) :
    (∀ c ∈ cs, ∃ b ∈ energy_breakdown cs rs,
        b.entity = c.entity ∧ b.entity_code = c.entity_code ∧ b.year = c.year ∧
          b.energy_consumption = c.energy_consumption) ∧
    (∀ c ∈ cs,
        (∀ r ∈ rs, ¬(r.entity = c.entity ∧ r.entity_code = some c.entity_code ∧
            r.year = c.year)) →
          mkEB c 0 ∈ energy_breakdown cs rs ∧ (mkEB c 0).renewable_energy_pct = 0 ∧
            (mkEB c 0).fossil_energy_pct = 1) ∧
    (∀ b ∈ energy_breakdown cs rs,
        b.fossil_energy_pct = 1 - b.renewable_energy_pct ∧
          b.renewable_energy_consumption = b.energy_consumption * b.renewable_energy_pct ∧
          b.fossil_energy_consumption = b.energy_consumption * b.fossil_energy_pct) := by
  refine ⟨?_, ?_, ?_⟩
  · intro c hc
    have hne := ebRowsFor_ne_nil rs c
    rcases List.exists_mem_of_ne_nil _ hne with ⟨b, hb⟩
    refine ⟨b, ebRowsFor_subset rs hc hb, ?_⟩
    rcases mem_ebRowsFor hb with ⟨p, rfl⟩
    exact ⟨rfl, rfl, rfl, rfl⟩
  · intro c hc hnone
    have hm : ebMatches rs c = [] := by
      apply List.filter_eq_nil_iff.mpr
      intro r hr
      simpa using hnone r hr
    have : ebRowsFor rs c = [mkEB c 0] := by
      rw [ebRowsFor, hm]
    refine ⟨ebRowsFor_subset rs hc ?_, rfl, ?_⟩
    · rw [this]
      exact List.mem_singleton.mpr rfl
    · show (1 : ℚ) - 0 = 1
      norm_num
  · intro b hb
    rcases eb_shape hb with ⟨c, -, p, rfl⟩
    exact ⟨rfl, rfl, rfl⟩

/-- Witness for C3 at a concrete input: a consumption row for Atlantis with no
renewable-share match is kept with share 0 and fossil share 1. -/
theorem C3_breakdown_left_join_witness :
    mkEB ⟨"Atlantis", "ATL", 2021, 10⟩ 0 ∈
        energy_breakdown [⟨"Atlantis", "ATL", 2021, 10⟩] [] ∧
      (mkEB ⟨"Atlantis", "ATL", 2021, 10⟩ 0).renewable_energy_pct = 0 ∧
      (mkEB ⟨"Atlantis", "ATL", 2021, 10⟩ 0).fossil_energy_pct = 1 :=
  (C3_breakdown_left_join [⟨"Atlantis", "ATL", 2021, 10⟩] []).2.1
    ⟨"Atlantis", "ATL", 2021, 10⟩ (by decide) (by intro r hr; cases hr)

/-- C4: every breakdown row splits its consumption exactly, so the claimed
equality holds within any floating-point tolerance. -/
theorem C4_consumption_split (cs : List ConsRow) (rs : List RenewRow) :
    ∀ b ∈ energy_breakdown cs rs,
      b.renewable_energy_consumption + b.fossil_energy_consumption =
        b.energy_consumption := by
  intro b hb
  rcases eb_shape hb with ⟨c, -, p, rfl⟩
  show c.energy_consumption * p + c.energy_consumption * (1 - p) = c.energy_consumption
  ring

/-- Witness for C4 at a concrete input: Esperia with a 50% renewable share. -/
theorem C4_consumption_split_witness :
    (⟨"Esperia", "ESP", 2020, 100, 1/2, 1/2, 50, 50⟩ : EBRow).renewable_energy_consumption +
        (⟨"Esperia", "ESP", 2020, 100, 1/2, 1/2, 50, 50⟩ : EBRow).fossil_energy_consumption =
      (⟨"Esperia", "ESP", 2020, 100, 1/2, 1/2, 50, 50⟩ : EBRow).energy_consumption :=
  C4_consumption_split [⟨"Esperia", "ESP", 2020, 100⟩]
    [⟨"Esperia", some "ESP", 2020, 1/2⟩]
    ⟨"Esperia", "ESP", 2020, 100, 1/2, 1/2, 50, 50⟩ (by decide)

/-- C6 counterexample: the basic pipeline's `_prepare_population` keeps a row
whose population is missing, with a null population, contradicting the claim
that the population normalizer drops every such row and leaves only non-null
integer populations. -/
theorem C6_population_normalizer_cex :
    ¬ (∀ p ∈ prepare_population [⟨"Atlantis", "ATL", 2020, none⟩],
        p.population.isSome = true) := by
  decide

/-- C6 amended: the advanced pipeline's `population` asset renames the raw
column, drops exactly the rows with a missing population and casts the kept
values to integer (so all its rows have non-null integer population and
year), while the basic pipeline's `_prepare_population` only renames and
selects columns, keeping every raw row with its possibly-missing population. -/
theorem C6_population_normalizer (raw : List RawPopRow) :
    (∀ p ∈ population raw, ∃ r ∈ raw, ∃ q : ℚ, r.population_raw = some q ∧
        p = ⟨r.Entity, r.Code, r.Year, truncQ q⟩) ∧
    (∀ r ∈ raw, ∀ q : ℚ, r.population_raw = some q →
        (⟨r.Entity, r.Code, r.Year, truncQ q⟩ : PopRow) ∈ population raw) ∧
    (population raw).length = (raw.filter (fun r => r.population_raw.isSome)).length ∧
    prepare_population raw = raw.map (fun r => ⟨r.Entity, r.Code, r.Year, r.population_raw⟩) := by
  refine ⟨?_, ?_, ?_, rfl⟩
  · intro p hp
    rcases List.mem_map.mp hp with ⟨r, hr, rfl⟩
    have hs := (List.mem_filter.mp hr).2
    rcases hq : r.population_raw with _ | q
    · rw [hq] at hs
      cases hs
    · exact ⟨r, (List.mem_filter.mp hr).1, q, hq, rfl⟩
  · intro r hr q hq
    have hs : r ∈ raw.filter (fun r => r.population_raw.isSome) :=
      List.mem_filter.mpr ⟨hr, by rw [hq]; rfl⟩
    have hmap := List.mem_map_of_mem (fun r : RawPopRow =>
      (⟨r.Entity, r.Code, r.Year, truncQ (r.population_raw.getD 0)⟩ : PopRow)) hs
    simpa [population, hq] using hmap
  · exact List.length_map _ _

/-- Witness for C6 at a concrete input: the Esperia row with a present
population survives normalization as an integer row. -/
theorem C6_population_normalizer_witness :
    (⟨"Esperia", "ESP", 2020, truncQ 331⟩ : PopRow) ∈
      population [⟨"Esperia", "ESP", 2020, some 331⟩, ⟨"Atlantis", "ATL", 2020, none⟩] :=
  (C6_population_normalizer
      [⟨"Esperia", "ESP", 2020, some 331⟩, ⟨"Atlantis", "ATL", 2020, none⟩]).2.1
    ⟨"Esperia", "ESP", 2020, some 331⟩ (by decide) 331 rfl

/-- C8: every stage of the pipeline is a function of its input tables, so two
runs on identical inputs produce identical outputs at every stage. -/
theorem C8_deterministic (rawPop rawPop' : List RawPopRow) (cs cs' : List ConsRow)
    (rs rs' : List RenewRow) (mapping mapping' : List RegionRow)
    (h1 : rawPop = rawPop') (h2 : cs = cs') (h3 : rs = rs') (h4 : mapping = mapping') :
    population rawPop = population rawPop' ∧
    energy_breakdown cs rs = energy_breakdown cs' rs' ∧
    energy_breakdown_with_population (energy_breakdown cs rs) (population rawPop) =
      energy_breakdown_with_population (energy_breakdown cs' rs') (population rawPop') ∧
    energy_breakdown_with_new_regions
        (energy_breakdown_with_population (energy_breakdown cs rs) (population rawPop))
        mapping =
      energy_breakdown_with_new_regions
        (energy_breakdown_with_population (energy_breakdown cs' rs') (population rawPop'))
        mapping' ∧
    energy_breakdown_per_capita
        (energy_breakdown_with_population (energy_breakdown cs rs) (population rawPop))
        (energy_breakdown_with_new_regions
          (energy_breakdown_with_population (energy_breakdown cs rs) (population rawPop))
          mapping) =
      energy_breakdown_per_capita
        (energy_breakdown_with_population (energy_breakdown cs' rs') (population rawPop'))
        (energy_breakdown_with_new_regions
          (energy_breakdown_with_population (energy_breakdown cs' rs') (population rawPop'))
          mapping') := by
  subst h1
  subst h2
  subst h3
  subst h4
  exact ⟨rfl, rfl, rfl, rfl, rfl⟩

/-- Witness for C8 at concrete identical inputs. -/
theorem C8_deterministic_witness :
    population [⟨"Esperia", "ESP", 2020, some 331⟩] =
        population [⟨"Esperia", "ESP", 2020, some 331⟩] ∧
    energy_breakdown [⟨"Esperia", "ESP", 2020, 100⟩] [] =
        energy_breakdown [⟨"Esperia", "ESP", 2020, 100⟩] [] ∧
    energy_breakdown_with_population (energy_breakdown [⟨"Esperia", "ESP", 2020, 100⟩] [])
        (population [⟨"Esperia", "ESP", 2020, some 331⟩]) =
      energy_breakdown_with_population (energy_breakdown [⟨"Esperia", "ESP", 2020, 100⟩] [])
        (population [⟨"Esperia", "ESP", 2020, some 331⟩]) ∧
    energy_breakdown_with_new_regions
        (energy_breakdown_with_population (energy_breakdown [⟨"Esperia", "ESP", 2020, 100⟩] [])
          (population [⟨"Esperia", "ESP", 2020, some 331⟩])) [] =
      energy_breakdown_with_new_regions
        (energy_breakdown_with_population (energy_breakdown [⟨"Esperia", "ESP", 2020, 100⟩] [])
          (population [⟨"Esperia", "ESP", 2020, some 331⟩])) [] ∧
    energy_breakdown_per_capita
        (energy_breakdown_with_population (energy_breakdown [⟨"Esperia", "ESP", 2020, 100⟩] [])
          (population [⟨"Esperia", "ESP", 2020, some 331⟩]))
        (energy_breakdown_with_new_regions
          (energy_breakdown_with_population (energy_breakdown [⟨"Esperia", "ESP", 2020, 100⟩] [])
            (population [⟨"Esperia", "ESP", 2020, some 331⟩])) []) =
      energy_breakdown_per_capita
        (energy_breakdown_with_population (energy_breakdown [⟨"Esperia", "ESP", 2020, 100⟩] [])
          (population [⟨"Esperia", "ESP", 2020, some 331⟩]))
        (energy_breakdown_with_new_regions
          (energy_breakdown_with_population (energy_breakdown [⟨"Esperia", "ESP", 2020, 100⟩] [])
            (population [⟨"Esperia", "ESP", 2020, some 331⟩])) []) :=
  C8_deterministic [⟨"Esperia", "ESP", 2020, some 331⟩] [⟨"Esperia", "ESP", 2020, some 331⟩]
    [⟨"Esperia", "ESP", 2020, 100⟩] [⟨"Esperia", "ESP", 2020, 100⟩] [] [] [] []
    rfl rfl rfl rfl

/-- C1 counterexample: for a region whose only member country reports zero
energy consumption, the rollup row's percentages are undefined (NaN), so the
conservation invariant fails on that regional-rollup row — and the blocking
`energy_conservation_check` still passes, because a NaN comparison is false. -/
theorem C1_conservation_invariant_cex :
    ¬ (∀ g ∈ energy_breakdown_with_new_regions
          (energy_breakdown_with_population
            (energy_breakdown [⟨"Zeroland", "ZRL", 2020, 0⟩] []) [])
          [⟨"RGN", "Regionia", "ZRL"⟩], conservationHolds g) ∧
      energy_conservation_check
        (energy_breakdown_with_new_regions
          (energy_breakdown_with_population
            (energy_breakdown [⟨"Zeroland", "ZRL", 2020, 0⟩] []) [])
          [⟨"RGN", "Regionia", "ZRL"⟩]) = true := by
  constructor
  · intro h
    have hmem : (⟨"Regionia", "RGN", 2020, 0, none, none, 0, 0, some 0⟩ : BRow) ∈
        energy_breakdown_with_new_regions
          (energy_breakdown_with_population
            (energy_breakdown [⟨"Zeroland", "ZRL", 2020, 0⟩] []) [])
          [⟨"RGN", "Regionia", "ZRL"⟩] := by decide
    rcases h _ hmem with ⟨qf, qr, hf, -, -⟩
    exact Option.noConfusion hf
  · decide

/-- C1 amended: the conservation invariant
`|fossil_energy_pct + renewable_energy_pct - 1| <= 1e-6` holds for every row
of the breakdown table, and for every row of the regional rollup table whose
summed energy consumption is nonzero (a zero-consumption group instead gets
undefined percentages, which the blocking check does not flag). -/
theorem C1_conservation_invariant (cs : List ConsRow) (rs : List RenewRow)
    (ps : List PopRow) (mapping : List RegionRow) :
    (∀ b ∈ energy_breakdown cs rs,
        |b.fossil_energy_pct + b.renewable_energy_pct - 1| ≤ tol) ∧
    (∀ g ∈ energy_breakdown_with_new_regions
          (energy_breakdown_with_population (energy_breakdown cs rs) ps) mapping,
        g.energy_consumption ≠ 0 → conservationHolds g) := by
  constructor
  · intro b hb
    rcases eb_shape hb with ⟨c, -, p, rfl⟩
    show |(1 - p) + p - 1| ≤ tol
    have hz : (1 - p) + p - 1 = (0 : ℚ) := by ring
    rw [hz]
    norm_num [tol]
  · intro g hg hne
    rcases rollup_shape hg with ⟨k, rfl⟩
    set ps' := entities_of_interest
      (energy_breakdown_with_population (energy_breakdown cs rs) ps) mapping with hps'
    have hsplit : ∀ x ∈ groupMembers ps' k,
        x.renewable_energy_consumption + x.fossil_energy_consumption =
          x.energy_consumption := by
      intro x hx
      rcases groupMembers_mem hx with ⟨pr, hpr, rfl⟩
      exact bwp_split (eoi_fst_mem hpr)
    have hsum := sum_split _ hsplit
    have hec : ((groupMembers ps' k).map (fun r => r.energy_consumption)).sum ≠ 0 := hne
    refine ⟨((groupMembers ps' k).map (fun r => r.fossil_energy_consumption)).sum /
        ((groupMembers ps' k).map (fun r => r.energy_consumption)).sum,
      ((groupMembers ps' k).map (fun r => r.renewable_energy_consumption)).sum /
        ((groupMembers ps' k).map (fun r => r.energy_consumption)).sum, ?_, ?_, ?_⟩
    · show fdiv ((groupMembers ps' k).map (fun r => r.fossil_energy_consumption)).sum
          ((groupMembers ps' k).map (fun r => r.energy_consumption)).sum = _
      rw [fdiv, if_neg hec]
    · show fdiv ((groupMembers ps' k).map (fun r => r.renewable_energy_consumption)).sum
          ((groupMembers ps' k).map (fun r => r.energy_consumption)).sum = _
      rw [fdiv, if_neg hec]
    · rw [div_add_div_same]
      have h2 : ((groupMembers ps' k).map (fun r => r.fossil_energy_consumption)).sum +
          ((groupMembers ps' k).map (fun r => r.renewable_energy_consumption)).sum =
            ((groupMembers ps' k).map (fun r => r.energy_consumption)).sum := by
        linarith
      rw [h2, div_self hec]
      norm_num [tol]

/-- Witness for the amended C1 at a concrete input: a one-country region with
nonzero consumption satisfies the conservation invariant after rollup. -/
theorem C1_conservation_invariant_witness :
    conservationHolds (⟨"Regionia", "RGN", 2020, 100, some (1/2), some (1/2),
      50, 50, some 0⟩ : BRow) :=
  (C1_conservation_invariant [⟨"Esperia", "ESP", 2020, 100⟩]
      [⟨"Esperia", some "ESP", 2020, 1/2⟩] [] [⟨"RGN", "Regionia", "ESP"⟩]).2
    ⟨"Regionia", "RGN", 2020, 100, some (1/2), some (1/2), 50, 50, some 0⟩
    (by decide) (by decide)

/-- C2: every regional rollup row carries the group sums of population,
energy consumption and renewable/fossil consumption over its member-country
rows, and its percentages are recomputed from the summed absolutes
(consumption-weighted); on the claim's example the rollup renewable share is
2/5 = 0.4, not the simple average 0.35. -/
theorem C2_rollup_weighted :
    (∀ (rows : List BRow) (mapping : List RegionRow),
      ∀ g ∈ energy_breakdown_with_new_regions rows mapping,
        g.population = some (((groupMembers (entities_of_interest rows mapping)
            (g.entity_code, g.entity, g.year)).map (fun r => r.population.getD 0)).sum) ∧
        g.energy_consumption = ((groupMembers (entities_of_interest rows mapping)
            (g.entity_code, g.entity, g.year)).map (fun r => r.energy_consumption)).sum ∧
        g.renewable_energy_consumption =
          ((groupMembers (entities_of_interest rows mapping)
            (g.entity_code, g.entity, g.year)).map
              (fun r => r.renewable_energy_consumption)).sum ∧
        g.fossil_energy_consumption =
          ((groupMembers (entities_of_interest rows mapping)
            (g.entity_code, g.entity, g.year)).map
              (fun r => r.fossil_energy_consumption)).sum ∧
        (g.energy_consumption ≠ 0 →
          g.renewable_energy_pct =
            some (g.renewable_energy_consumption / g.energy_consumption) ∧
          g.fossil_energy_pct =
            some (g.fossil_energy_consumption / g.energy_consumption))) ∧
    ((energy_breakdown_with_new_regions
        [⟨"A", "AAA", 2020, 100, some (1/2), some (1/2), 50, 50, some 10⟩,
         ⟨"B", "BBB", 2020, 50, some (1/5), some (4/5), 10, 40, some 20⟩]
        [⟨"RGN", "Regionia", "AAA"⟩, ⟨"RGN", "Regionia", "BBB"⟩]).map
          (fun g => g.renewable_energy_pct) = [some (2/5)] ∧
      ((1 : ℚ)/2 + 1/5) / 2 ≠ 2/5) := by
  constructor
  · intro rows mapping g hg
    rcases rollup_shape hg with ⟨k, rfl⟩
    refine ⟨rfl, rfl, rfl, rfl, fun h => ?_⟩
    have hec : ((groupMembers (entities_of_interest rows mapping) k).map
        (fun r => r.energy_consumption)).sum ≠ 0 := h
    constructor
    · show fdiv ((groupMembers (entities_of_interest rows mapping) k).map
            (fun r => r.renewable_energy_consumption)).sum
          ((groupMembers (entities_of_interest rows mapping) k).map
            (fun r => r.energy_consumption)).sum = _
      rw [fdiv, if_neg hec]
      exact rfl
    · show fdiv ((groupMembers (entities_of_interest rows mapping) k).map
            (fun r => r.fossil_energy_consumption)).sum
          ((groupMembers (entities_of_interest rows mapping) k).map
            (fun r => r.energy_consumption)).sum = _
      rw [fdiv, if_neg hec]
      exact rfl
  · exact ⟨by decide, by decide⟩

/-- Witness for C2 at the claim's example input: the rollup renewable share
equals the consumption-weighted ratio of its own summed columns. -/
theorem C2_rollup_weighted_witness :
    (⟨"Regionia", "RGN", 2020, 150, some (2/5), some (3/5), 60, 90, some 30⟩ :
        BRow).renewable_energy_pct =
      some ((⟨"Regionia", "RGN", 2020, 150, some (2/5), some (3/5), 60, 90,
          some 30⟩ : BRow).renewable_energy_consumption /
        (⟨"Regionia", "RGN", 2020, 150, some (2/5), some (3/5), 60, 90,
          some 30⟩ : BRow).energy_consumption) :=
  ((C2_rollup_weighted.1
      [⟨"A", "AAA", 2020, 100, some (1/2), some (1/2), 50, 50, some 10⟩,
       ⟨"B", "BBB", 2020, 50, some (1/5), some (4/5), 10, 40, some 20⟩]
      [⟨"RGN", "Regionia", "AAA"⟩, ⟨"RGN", "Regionia", "BBB"⟩]
      ⟨"Regionia", "RGN", 2020, 150, some (2/5), some (3/5), 60, 90, some 30⟩
      (by decide)).2.2.2.2 (by decide)).1

/-- C9: the regional aggregator divides by the summed energy consumption with
no zero guard: any rollup row whose summed consumption is zero has undefined
(NaN) renewable and fossil percentages, so the conservation invariant cannot
hold for it. -/
theorem C9_zero_divisor (rows : List BRow) (mapping : List RegionRow) (g : BRow)
    (hg : g ∈ energy_breakdown_with_new_regions rows mapping)
    (h0 : g.energy_consumption = 0) :
    g.renewable_energy_pct = none ∧ g.fossil_energy_pct = none ∧
      ¬ conservationHolds g := by
  rcases rollup_shape hg with ⟨k, rfl⟩
  have h0' : ((groupMembers (entities_of_interest rows mapping) k).map
      (fun r => r.energy_consumption)).sum = 0 := h0
  have hr : (mkRollup (entities_of_interest rows mapping) k).renewable_energy_pct =
      none := by
    show fdiv ((groupMembers (entities_of_interest rows mapping) k).map
          (fun r => r.renewable_energy_consumption)).sum
        ((groupMembers (entities_of_interest rows mapping) k).map
          (fun r => r.energy_consumption)).sum = none
    rw [fdiv, if_pos h0']
  have hf : (mkRollup (entities_of_interest rows mapping) k).fossil_energy_pct =
      none := by
    show fdiv ((groupMembers (entities_of_interest rows mapping) k).map
          (fun r => r.fossil_energy_consumption)).sum
        ((groupMembers (entities_of_interest rows mapping) k).map
          (fun r => r.energy_consumption)).sum = none
    rw [fdiv, if_pos h0']
  refine ⟨hr, hf, ?_⟩
  rintro ⟨qf, qr, hqf, -, -⟩
  rw [hf] at hqf
  exact Option.noConfusion hqf

/-- Witness for C9 at a concrete input: a region whose single member reports
zero consumption gets undefined percentages. -/
theorem C9_zero_divisor_witness :
    (⟨"Regionia", "RGN", 2020, 0, none, none, 0, 0, some 100⟩ :
        BRow).renewable_energy_pct = none ∧
      (⟨"Regionia", "RGN", 2020, 0, none, none, 0, 0, some 100⟩ :
        BRow).fossil_energy_pct = none ∧
      ¬ conservationHolds
        (⟨"Regionia", "RGN", 2020, 0, none, none, 0, 0, some 100⟩ : BRow) :=
  C9_zero_divisor [⟨"Zeroland", "ZRL", 2020, 0, some 0, some 1, 0, 0, some 100⟩]
    [⟨"RGN", "Regionia", "ZRL"⟩]
    ⟨"Regionia", "RGN", 2020, 0, none, none, 0, 0, some 100⟩
    (by decide) (by decide)

/-- C10: the rollup's population aggregation skips null member populations:
every rollup row has a non-null population equal to the sum over only the
member rows whose population is known. -/
theorem C10_population_skipna (rows : List BRow) (mapping : List RegionRow) (g : BRow)
    (hg : g ∈ energy_breakdown_with_new_regions rows mapping) :
    ∃ n : ℤ, g.population = some n ∧
      n = ((groupMembers (entities_of_interest rows mapping)
          (g.entity_code, g.entity, g.year)).filterMap (fun r => r.population)).sum := by
  rcases rollup_shape hg with ⟨k, rfl⟩
  exact ⟨_, rfl, sum_getD_eq_sum_filterMap _⟩

/-- Witness for C10 at a concrete input: a region with one known-population
member and one null-population member gets the non-null sum over the known
member only. -/
theorem C10_population_skipna_witness :
    ∃ n : ℤ,
      (⟨"Regionia", "RGN", 2020, 15, some 1, some 0, 15, 0, some 7⟩ :
        BRow).population = some n ∧
      n = ((groupMembers (entities_of_interest
            [⟨"A", "AAA", 2020, 10, some 1, some 0, 10, 0, some 7⟩,
             ⟨"B", "BBB", 2020, 5, some 1, some 0, 5, 0, none⟩]
            [⟨"RGN", "Regionia", "AAA"⟩, ⟨"RGN", "Regionia", "BBB"⟩])
          ((⟨"Regionia", "RGN", 2020, 15, some 1, some 0, 15, 0, some 7⟩ :
              BRow).entity_code,
            (⟨"Regionia", "RGN", 2020, 15, some 1, some 0, 15, 0, some 7⟩ :
              BRow).entity,
            (⟨"Regionia", "RGN", 2020, 15, some 1, some 0, 15, 0, some 7⟩ :
              BRow).year)).filterMap (fun r => r.population)).sum :=
  C10_population_skipna
    [⟨"A", "AAA", 2020, 10, some 1, some 0, 10, 0, some 7⟩,
     ⟨"B", "BBB", 2020, 5, some 1, some 0, 5, 0, none⟩]
    [⟨"RGN", "Regionia", "AAA"⟩, ⟨"RGN", "Regionia", "BBB"⟩]
    ⟨"Regionia", "RGN", 2020, 15, some 1, some 0, 15, 0, some 7⟩
    (by decide)

/-- C5: the per-capita calculator maps every row of the unioned
country+region table to the three per-capita quotients without dropping any
row; a row with null or zero population gets undefined per-capita values,
stays in the full per-capita table (the `Raw_Data` sheet) but is excluded
from both Top-10 ranking sheets and from the pivot-sheet data. -/
theorem C5_per_capita (a b : List BRow) :
    (energy_breakdown_per_capita a b).length = a.length + b.length ∧
    (∀ r ∈ a ++ b,
      perCapita r ∈ energy_breakdown_per_capita a b ∧
      (perCapita r).toBRow = r ∧
      (perCapita r).energy_consumption_per_capita =
        pdiv r.energy_consumption r.population ∧
      (perCapita r).renewable_energy_per_capita =
        pdiv r.renewable_energy_consumption r.population ∧
      (perCapita r).fossil_energy_per_capita =
        pdiv r.fossil_energy_consumption r.population ∧
      (∀ p : ℤ, r.population = some p → p ≠ 0 →
        (perCapita r).energy_consumption_per_capita =
          some (r.energy_consumption / (p : ℚ)) ∧
        (perCapita r).renewable_energy_per_capita =
          some (r.renewable_energy_consumption / (p : ℚ)) ∧
        (perCapita r).fossil_energy_per_capita =
          some (r.fossil_energy_consumption / (p : ℚ))) ∧
      ((r.population = none ∨ r.population = some 0) →
        (perCapita r).energy_consumption_per_capita = none ∧
        (perCapita r).renewable_energy_per_capita = none ∧
        (perCapita r).fossil_energy_per_capita = none ∧
        perCapita r ∉ top_10_renewable_max (energy_breakdown_per_capita a b) ∧
        perCapita r ∉ top_10_fossil_max (energy_breakdown_per_capita a b) ∧
        perCapita r ∉ nam_iberia_data (energy_breakdown_per_capita a b))) := by
  constructor
  · simp [energy_breakdown_per_capita]
  · intro r hr
    have hkey : ∀ q : ℚ, (r.population = none ∨ r.population = some 0) →
        pdiv q r.population = none := by
      intro q hc
      rcases hc with h | h <;> rw [h] <;> simp [pdiv]
    refine ⟨List.mem_map_of_mem perCapita hr, rfl, rfl, rfl, rfl, ?_, ?_⟩
    · intro p hp hne
      refine ⟨?_, ?_, ?_⟩ <;>
        · show pdiv _ r.population = _
          rw [hp]
          simp [pdiv, hne]
    · intro hc
      have h1 : (perCapita r).energy_consumption_per_capita = none :=
        hkey r.energy_consumption hc
      have h2 : (perCapita r).renewable_energy_per_capita = none :=
        hkey r.renewable_energy_consumption hc
      have h3 : (perCapita r).fossil_energy_per_capita = none :=
        hkey r.fossil_energy_consumption hc
      have hinv : validRow (perCapita r) = false := validRow_false_of_undefined h1
      refine ⟨h1, h2, h3, ?_, ?_, ?_⟩
      · intro hmem
        have := top_10_renewable_max_valid hmem
        rw [hinv] at this
        exact Bool.noConfusion this
      · intro hmem
        have := top_10_fossil_max_valid hmem
        rw [hinv] at this
        exact Bool.noConfusion this
      · intro hmem
        have := nam_iberia_data_valid hmem
        rw [hinv] at this
        exact Bool.noConfusion this

/-- Witness for C5 at a concrete input: a country row with a null population
gets an undefined consumption-per-capita value and is excluded from the
renewable Top-10 sheet. -/
theorem C5_per_capita_witness :
    (perCapita ⟨"Ghostland", "GST", 2020, 10, some 0, some 1, 0, 10,
        none⟩).energy_consumption_per_capita = none ∧
    perCapita ⟨"Ghostland", "GST", 2020, 10, some 0, some 1, 0, 10, none⟩ ∉
      top_10_renewable_max (energy_breakdown_per_capita
        [⟨"Ghostland", "GST", 2020, 10, some 0, some 1, 0, 10, none⟩] []) := by
  have h := ((C5_per_capita
      [⟨"Ghostland", "GST", 2020, 10, some 0, some 1, 0, 10, none⟩] []).2
    ⟨"Ghostland", "GST", 2020, 10, some 0, some 1, 0, 10, none⟩
    (by decide)).2.2.2.2.2.2 (Or.inl rfl)
  exact ⟨h.1, h.2.2.2.1⟩

/-- C7: a country whose `entity_code` is absent from the regional mapping
contributes nothing to any regional rollup (removing its row leaves the
rollup table unchanged), yet its row still appears in the unioned per-capita
output. -/
theorem C7_unmapped_country (l1 l2 : List BRow) (mapping : List RegionRow) (r : BRow)
    (h : ∀ m ∈ mapping, m.entity_code ≠ r.entity_code) :
    energy_breakdown_with_new_regions (l1 ++ r :: l2) mapping =
      energy_breakdown_with_new_regions (l1 ++ l2) mapping ∧
    perCapita r ∈ energy_breakdown_per_capita (l1 ++ r :: l2)
      (energy_breakdown_with_new_regions (l1 ++ r :: l2) mapping) := by
  have hfilter : mapping.filter (fun m => decide (m.entity_code = r.entity_code)) = [] := by
    apply List.filter_eq_nil_iff.mpr
    intro m hm
    simpa using h m hm
  have heoi : entities_of_interest (l1 ++ r :: l2) mapping =
      entities_of_interest (l1 ++ l2) mapping := by
    rw [eoi_append l1 (r :: l2), eoi_append l1 l2]
    have hcons : entities_of_interest (r :: l2) mapping =
        entities_of_interest l2 mapping := by
      show (mapping.filter (fun m => decide (m.entity_code = r.entity_code))).map
          (fun m => (r, m)) ++ entities_of_interest l2 mapping = _
      rw [hfilter]
      rfl
    rw [hcons]
  constructor
  · unfold energy_breakdown_with_new_regions
    rw [heoi]
  · exact List.mem_map_of_mem perCapita
      (List.mem_append_left _ (List.mem_append_right l1 (List.mem_cons_self r l2)))

/-- Witness for C7 at a concrete input: Lonely (code LNL) is absent from a
mapping that only lists AAA; its row changes no rollup and is still present
in the per-capita union. -/
theorem C7_unmapped_country_witness :
    energy_breakdown_with_new_regions
        [⟨"Lonely", "LNL", 2020, 10, some 1, some 0, 10, 0, some 5⟩]
        [⟨"RGN", "Regionia", "AAA"⟩] =
      energy_breakdown_with_new_regions [] [⟨"RGN", "Regionia", "AAA"⟩] ∧
    perCapita ⟨"Lonely", "LNL", 2020, 10, some 1, some 0, 10, 0, some 5⟩ ∈
      energy_breakdown_per_capita
        [⟨"Lonely", "LNL", 2020, 10, some 1, some 0, 10, 0, some 5⟩]
        (energy_breakdown_with_new_regions
          [⟨"Lonely", "LNL", 2020, 10, some 1, some 0, 10, 0, some 5⟩]
          [⟨"RGN", "Regionia", "AAA"⟩]) :=
  C7_unmapped_country [] []
    [⟨"RGN", "Regionia", "AAA"⟩]
    ⟨"Lonely", "LNL", 2020, 10, some 1, some 0, 10, 0, some 5⟩
    (by decide)

end EnergyAnalysis
